import Mathlib

/-!
Shallow embedding of the SafeLoop Care service layer (userService, the
delete_wearer_safely SQL function, and the HomeScreen realtime effect),
together with theorems settling the specification claims about it.

The backend is modelled as a record of tables (lists of rows); each
service operation becomes a pure function from a database state (plus an
environment carrying clock values and injected backend faults) to a new
database state and a result.
-/

namespace SafeLoop

/-- Lifecycle states of a help request (`event_status` in the HelpRequest
interface of userService). -/
inductive EventStatus
  | active
  | responded_to
  | resolved
  | false_alarm
deriving DecidableEq, Repr

/-- `request_type` of a help request. -/
inductive RequestType
  | manual_request
  | fall
deriving DecidableEq, Repr

/-- `fall_response` of a help request. -/
inductive FallResponse
  | confirmed
  | unresponsive
deriving DecidableEq, Repr

/-- `user_type` of a user profile. -/
inductive UserType
  | caregiver
  | caregiver_admin
deriving DecidableEq, Repr

/-- A row of the `devices` table, with the columns the client code reads
and writes (id, device_uuid, seven_digit_code, wearer_id, is_verified,
device_model, last_seen, updated_at). -/
structure DeviceRow where
  id : Nat
  device_uuid : String
  seven_digit_code : String
  wearer_id : Option Nat
  is_verified : Bool
  device_model : Option String
  last_seen : Option String
  updated_at : String
deriving DecidableEq, Repr

/-- A row of the `wearers` table (Wearer interface of userService,
without the hydrated `device` sub-list). -/
structure WearerRow where
  id : Nat
  safeloop_account_id : Nat
  name : String
  date_of_birth : Option String
  gender : Option String
  medical_conditions : Option (List String)
  medications : Option (List String)
  allergies : Option (List String)
  emergency_notes : Option String
  wearer_contact_phone : Option String
  created_at : String
  updated_at : String
deriving DecidableEq, Repr

/-- A row of the `users` table (UserProfile interface of userService). -/
structure UserRow where
  id : Nat
  auth_user_id : String
  safeloop_account_id : Option Nat
  email : String
  display_name : Option String
  phone_number : Option String
  user_type : UserType
  is_active : Bool
  timezone : String
  created_at : String
  updated_at : String
deriving DecidableEq, Repr

/-- A row of the `caregiver_wearer_assignments` table. -/
structure AssignmentRow where
  id : Nat
  caregiver_user_id : Nat
  wearer_id : Nat
  relationship_type : String
  is_primary : Bool
  is_emergency_contact : Bool
deriving DecidableEq, Repr

/-- A row of the `help_requests` table (HelpRequest interface of
userService, without the hydrated `wearer` sub-record).  Locations are
kept abstract as integers; none of the verified operations computes with
them. -/
structure HelpRequestRow where
  id : Nat
  wearer_id : Nat
  device_id : Option Nat
  request_type : RequestType
  event_status : EventStatus
  fall_response : Option FallResponse
  location_latitude : Option Int
  location_longitude : Option Int
  location_accuracy : Option Int
  location_timestamp : Option String
  responded_by : Option Nat
  responded_at : Option String
  resolved_at : Option String
  notes : Option String
  created_at : String
deriving DecidableEq, Repr

/-- A row of the `wearer_settings` table (only touched by
`delete_wearer_safely`, which filters it by `wearer_id`). -/
structure SettingsRow where
  id : Nat
  wearer_id : Nat
deriving DecidableEq, Repr

/-- The backend database state: one list of rows per table, plus a
counter supplying the next server-generated primary key. -/
structure DB where
  wearers : List WearerRow
  devices : List DeviceRow
  users : List UserRow
  assignments : List AssignmentRow
  help_requests : List HelpRequestRow
  wearer_settings : List SettingsRow
  nextId : Nat
deriving DecidableEq, Repr

/-! ## Help-request lifecycle (userService.updateHelpRequestStatus) -/

/-- The status argument of `updateHelpRequestStatus`: the TypeScript
signature restricts it to `responded_to | resolved | false_alarm`. -/
inductive UpdateStatus
  | responded_to
  | resolved
  | false_alarm
deriving DecidableEq, Repr

/-- The `event_status` value written for each status argument. -/
def UpdateStatus.toEventStatus : UpdateStatus → EventStatus
  | .responded_to => .responded_to
  | .resolved => .resolved
  | .false_alarm => .false_alarm

/-- The `updates` object of `updateHelpRequestStatus`, applied to one
matching row: always writes `event_status`; writes `responded_by` and
`responded_at` exactly when the status is `responded_to`; writes
`resolved_at` exactly when it is `resolved` or `false_alarm`; writes
`notes` exactly when the `notes` argument is present and truthy (the
empty string is falsy in `if (notes)`). -/
def applyHelpRequestUpdate (status : UpdateStatus) (userId : Nat)
    (notes : Option String) (now : String) (r : HelpRequestRow) : HelpRequestRow :=
  let r1 := { r with event_status := status.toEventStatus }
  let r2 :=
    match status with
    | .responded_to => { r1 with responded_by := some userId, responded_at := some now }
    | .resolved => { r1 with resolved_at := some now }
    | .false_alarm => { r1 with resolved_at := some now }
  match notes with
  | some s => if s = "" then r2 else { r2 with notes := some s }
  | none => r2

/-- `userService.updateHelpRequestStatus`: applies the update object to
every `help_requests` row whose `id` equals `helpRequestId`
(`.update(updates).eq('id', helpRequestId)`). -/
def updateHelpRequestStatus (db : DB) (helpRequestId : Nat)
    (status : UpdateStatus) (userId : Nat) (notes : Option String)
    (now : String) : DB :=
  { db with
    help_requests := db.help_requests.map fun r =>
      if r.id = helpRequestId then applyHelpRequestUpdate status userId notes now r else r }

/-- One call to `updateHelpRequestStatus` as issued by a screen. -/
structure UpdateOp where
  helpRequestId : Nat
  status : UpdateStatus
  userId : Nat
  notes : Option String
  now : String
deriving DecidableEq, Repr

/-- A sequence of `updateHelpRequestStatus` calls, applied in order. -/
def applyStatusUpdates (db : DB) (ops : List UpdateOp) : DB :=
  ops.foldl
    (fun acc op =>
      updateHelpRequestStatus acc op.helpRequestId op.status op.userId op.notes op.now)
    db

/-! ## Wearer registration (userService.createWearer / getWearerById) -/

/-- The `device` sub-record of a hydrated Wearer: the columns selected by
`device:devices(id, seven_digit_code, device_model, is_verified, last_seen)`. -/
structure DeviceInfo where
  id : Nat
  seven_digit_code : String
  device_model : Option String
  is_verified : Bool
  last_seen : Option String
deriving DecidableEq, Repr

/-- Projection of a device row to the hydration select list. -/
def DeviceRow.toInfo (d : DeviceRow) : DeviceInfo :=
  { id := d.id
    seven_digit_code := d.seven_digit_code
    device_model := d.device_model
    is_verified := d.is_verified
    last_seen := d.last_seen }

/-- A hydrated Wearer as returned by `getWearerById`: the wearer row plus
the list of devices currently bound to it. -/
structure Wearer where
  row : WearerRow
  device : List DeviceInfo
deriving DecidableEq, Repr

/-- `userService.getWearerById`: selects the wearer row by id
(`.single()` errors with PGRST116 when no row matches) and hydrates it
with the devices whose `wearer_id` references it. -/
def getWearerById (db : DB) (wearerId : Nat) : Except String Wearer :=
  match db.wearers.find? (fun w => w.id = wearerId) with
  | none => .error "PGRST116"
  | some w =>
      .ok { row := w
            device := (db.devices.filter fun d => d.wearer_id = some wearerId).map DeviceRow.toInfo }

/-- The `CreateWearerData` argument of `createWearer`. -/
structure CreateWearerData where
  name : String
  date_of_birth : Option String
  seven_digit_code : String
deriving DecidableEq, Repr

/-- Environment of a `createWearer` call: the clock value used for
timestamps, the generated temporary `device_uuid` placeholder
(`temp-${Date.now()}-${random}`), and an injected backend failure for
the device update/insert step (`none` means the step succeeds). -/
structure Env where
  now : String
  tempUuid : String
  deviceWriteError : Option String
deriving DecidableEq, Repr

/-- `wearerData.date_of_birth || null`: an absent or empty string becomes
null. -/
def dobOrNull : Option String → Option String
  | some s => if s = "" then none else some s
  | none => none

/-- The wearer row inserted by `createWearer` (step: insert into
`wearers` with account id, name and date of birth; the other columns
take their defaults). -/
def newWearerRow (acc : Nat) (wearerData : CreateWearerData) (env : Env) : Nat → WearerRow :=
  fun wearerId =>
    { id := wearerId
      safeloop_account_id := acc
      name := wearerData.name
      date_of_birth := dobOrNull wearerData.date_of_birth
      gender := none
      medical_conditions := none
      medications := none
      allergies := none
      emergency_notes := none
      wearer_contact_phone := none
      created_at := env.now
      updated_at := env.now }

/-- `userService.createWearer`.  Mirrors the source control flow:
1. fail when the caller's profile carries no account id;
2. look the device up by `seven_digit_code` (`.single()`, a PGRST116
   no-row result is treated as absence);
3. when the device exists and is already bound, fail with the conflict
   message before any write;
4. insert the wearer row;
5. bind the existing unbound device (`.update({wearer_id}).eq('id', …)`)
   or insert a new device row with the temporary uuid and
   `is_verified = false`; when this step fails (injected via
   `env.deviceWriteError`) delete the wearer created in step 4 and
   rethrow the error;
6. return `getWearerById` on the new wearer. -/
def createWearer (db : DB) (userProfile : UserRow) (wearerData : CreateWearerData)
    (env : Env) : Except String Wearer × DB :=
  match userProfile.safeloop_account_id with
  | none => (.error "User is not associated with a SafeLoop account", db)
  | some acc =>
    let existingDevice := db.devices.find? fun d =>
      d.seven_digit_code = wearerData.seven_digit_code
    match existingDevice with
    | some d =>
      match d.wearer_id with
      | some _ => (.error "This device code is already registered to another wearer", db)
      | none =>
        let wearerId := db.nextId
        let wearer := newWearerRow acc wearerData env wearerId
        let db1 : DB := { db with wearers := db.wearers ++ [wearer], nextId := db.nextId + 1 }
        match env.deviceWriteError with
        | some e =>
          (.error e, { db1 with wearers := db1.wearers.filter fun w => w.id ≠ wearerId })
        | none =>
          let db2 : DB :=
            { db1 with
              devices := db1.devices.map fun dd =>
                if dd.id = d.id then { dd with wearer_id := some wearerId } else dd }
          (getWearerById db2 wearerId, db2)
    | none =>
      let wearerId := db.nextId
      let wearer := newWearerRow acc wearerData env wearerId
      let db1 : DB := { db with wearers := db.wearers ++ [wearer], nextId := db.nextId + 1 }
      match env.deviceWriteError with
      | some e =>
        (.error e, { db1 with wearers := db1.wearers.filter fun w => w.id ≠ wearerId })
      | none =>
        let newDevice : DeviceRow :=
          { id := db1.nextId
            device_uuid := env.tempUuid
            seven_digit_code := wearerData.seven_digit_code
            wearer_id := some wearerId
            is_verified := false
            device_model := none
            last_seen := none
            updated_at := env.now }
        let db2 : DB :=
          { db1 with devices := db1.devices ++ [newDevice], nextId := db1.nextId + 1 }
        (getWearerById db2 wearerId, db2)

/-- The `^\d{7}$` validation of RegisterWearerScreen.handleSave (length
exactly 7 and digits only). -/
def isSevenDigitCode (s : String) : Bool :=
  s.length = 7 && s.toList.all Char.isDigit

/-! ## Wearer deletion -/

/-- `userService.deleteWearer`: deletes the `wearers` row by id.  Per the
function's own comment ("associated devices will be automatically
deleted via CASCADE") and the WearersScreen confirmation dialog ("This
will permanently delete both the wearer and their … device"), the
database then removes the bound device rows, which the model includes. -/
def deleteWearer (db : DB) (wearerId : Nat) : DB :=
  { db with
    wearers := db.wearers.filter fun w => w.id ≠ wearerId,
    devices := db.devices.filter fun d => d.wearer_id ≠ some wearerId }

/-- The `delete_wearer_safely` SQL function of create_delete_function.js:
returns false when the wearer does not exist; otherwise unbinds its
devices (set `wearer_id` to null, touch `updated_at`), deletes its
assignments, help requests and settings, deletes the wearer row, and
returns true.  The plpgsql body runs as one statement, so the caller
observes the steps atomically. -/
def delete_wearer_safely (db : DB) (wearerId : Nat) (now : String) : Bool × DB :=
  if db.wearers.any fun w => w.id = wearerId then
    (true,
      { db with
        devices := db.devices.map fun d =>
          if d.wearer_id = some wearerId then { d with wearer_id := none, updated_at := now } else d,
        assignments := db.assignments.filter fun a => a.wearer_id ≠ wearerId,
        help_requests := db.help_requests.filter fun h => h.wearer_id ≠ wearerId,
        wearer_settings := db.wearer_settings.filter fun s => s.wearer_id ≠ wearerId,
        wearers := db.wearers.filter fun w => w.id ≠ wearerId })
  else (false, db)

/-! ## Caregiver assignment queries -/

/-- The columns selected for a caregiver
(`id, email, display_name, phone_number, user_type`). -/
structure CaregiverInfo where
  id : Nat
  email : String
  display_name : Option String
  phone_number : Option String
  user_type : UserType
deriving DecidableEq, Repr

/-- Projection of a user row to the caregiver select list. -/
def UserRow.toCaregiverInfo (u : UserRow) : CaregiverInfo :=
  { id := u.id
    email := u.email
    display_name := u.display_name
    phone_number := u.phone_number
    user_type := u.user_type }

/-- An entry returned by `getAssignedCaregivers`: assignment fields plus
the joined caregiver fields, which are absent when no user row matches
the assignment's `caregiver_user_id`. -/
structure AssignedCaregiver where
  assignment_id : Nat
  id : Option Nat
  email : Option String
  display_name : Option String
  phone_number : Option String
  user_type : Option UserType
  relationship_type : String
  is_primary : Bool
  is_emergency_contact : Bool
deriving DecidableEq, Repr

/-- One entry of the `getAssignedCaregivers` result: the assignment
joined client-side with the first fetched caregiver whose id matches
(`caregivers?.find(c => c.id === assignment.caregiver_user_id)`); the
profile fields stay absent when none matches. -/
def assignmentEntry (caregivers : List CaregiverInfo) (a : AssignmentRow) : AssignedCaregiver :=
  let caregiver := caregivers.find? fun c => c.id = a.caregiver_user_id
  { assignment_id := a.id
    id := caregiver.map (fun c => c.id)
    email := caregiver.map (fun c => c.email)
    display_name := caregiver.bind (fun c => c.display_name)
    phone_number := caregiver.bind (fun c => c.phone_number)
    user_type := caregiver.map (fun c => c.user_type)
    relationship_type := a.relationship_type
    is_primary := a.is_primary
    is_emergency_contact := a.is_emergency_contact }

/-- `userService.getAssignedCaregivers`: fetch the wearer's assignments;
return `[]` when there are none; otherwise fetch the user rows whose id
is among the assignments' caregiver ids and join each assignment with
the first matching caregiver. -/
def getAssignedCaregivers (db : DB) (wearerId : Nat) : List AssignedCaregiver :=
  let assignments := db.assignments.filter fun a => a.wearer_id = wearerId
  if assignments.isEmpty then []
  else
    let caregiverIds := assignments.map fun a => a.caregiver_user_id
    let caregivers := (db.users.filter fun u => u.id ∈ caregiverIds).map UserRow.toCaregiverInfo
    assignments.map (assignmentEntry caregivers)

/-- `userService.getAvailableCaregivers`: fail when the profile carries
no account id; otherwise fetch all caregivers of the account and filter
out those whose id appears among the wearer's assignments. -/
def getAvailableCaregivers (db : DB) (userProfile : UserRow) (wearerId : Nat) :
    Except String (List CaregiverInfo) :=
  match userProfile.safeloop_account_id with
  | none => .error "User is not associated with a SafeLoop account"
  | some acc =>
    let allCaregivers := (db.users.filter fun u => u.safeloop_account_id = some acc).map
      UserRow.toCaregiverInfo
    let assignedIds := (db.assignments.filter fun a => a.wearer_id = wearerId).map
      fun a => a.caregiver_user_id
    .ok (allCaregivers.filter fun c => c.id ∉ assignedIds)

/-! ## HomeScreen realtime subscription lifecycle -/

/-- The channel name HomeScreen subscribes
(`supabase.channel('help-requests-realtime')`). -/
def helpRequestsChannel : String := "help-requests-realtime"

/-- HomeScreen's `setupRealtimeSubscription`: returns early (producing no
cleanup) without an account id; otherwise subscribes the help-requests
channel and returns a closure that unsubscribes it.  The subscription
state is the list of live channel names. -/
def setupRealtimeSubscription (hasAccount : Bool) (subs : List String) :
    List String × Option (List String → List String) :=
  if hasAccount then
    (subs ++ [helpRequestsChannel],
      some fun l => l.filter fun c => c ≠ helpRequestsChannel)
  else (subs, none)

/-- The HomeScreen mount effect (the `useEffect` body): when the profile
has an account id it runs `loadHelpRequests()` and
`setupRealtimeSubscription()` as statements; the value
`setupRealtimeSubscription` returns is discarded, and the effect body
itself returns no cleanup. -/
def homeScreenEffect (hasAccount : Bool) (subs : List String) :
    List String × Option (List String → List String) :=
  if hasAccount then
    ((setupRealtimeSubscription hasAccount subs).1, none)
  else (subs, none)

/-- The React effect lifecycle: run the mount effect, then on unmount run
whatever cleanup the effect body returned, if any. -/
def mountThenUnmount
    (effect : List String → List String × Option (List String → List String))
    (subs : List String) : List String :=
  match effect subs with
  | (s, some cleanup) => cleanup s
  | (s, none) => s

/-! ## Helper lemmas -/

/-- The status argument type never maps to `active`. -/
lemma UpdateStatus.toEventStatus_ne_active (st : UpdateStatus) :
    st.toEventStatus ≠ EventStatus.active := by
  cases st <;> simp [UpdateStatus.toEventStatus]

/-- The update object never touches the row id. -/
lemma applyHelpRequestUpdate_id (st : UpdateStatus) (u : Nat) (n : Option String)
    (t : String) (r : HelpRequestRow) :
    (applyHelpRequestUpdate st u n t r).id = r.id := by
  cases st <;> rcases n with _ | s <;> simp [applyHelpRequestUpdate] <;> split <;> rfl

/-- The update object always writes the requested status. -/
lemma applyHelpRequestUpdate_event_status (st : UpdateStatus) (u : Nat)
    (n : Option String) (t : String) (r : HelpRequestRow) :
    (applyHelpRequestUpdate st u n t r).event_status = st.toEventStatus := by
  cases st <;> rcases n with _ | s <;> simp [applyHelpRequestUpdate] <;> split <;> rfl

/-- A non-empty notes argument is stored verbatim. -/
lemma applyHelpRequestUpdate_notes (st : UpdateStatus) (u : Nat) (s : String)
    (t : String) (r : HelpRequestRow) (hs : s ≠ "") :
    (applyHelpRequestUpdate st u (some s) t r).notes = some s := by
  cases st <;> simp [applyHelpRequestUpdate, hs]

/-- Membership in the updated help-request table comes from membership in
the old one, through the row transformer. -/
lemma mem_updateHelpRequestStatus {db : DB} {rid : Nat} {st : UpdateStatus}
    {u : Nat} {n : Option String} {t : String} {r : HelpRequestRow}
    (h : r ∈ (updateHelpRequestStatus db rid st u n t).help_requests) :
    ∃ r0 ∈ db.help_requests,
      (if r0.id = rid then applyHelpRequestUpdate st u n t r0 else r0) = r := by
  simpa [updateHelpRequestStatus, List.mem_map] using h

/-! ## Claim theorems: help-request lifecycle -/

/-- Claim C5: every status update issued through `updateHelpRequestStatus`
writes one of `responded_to`, `resolved`, `false_alarm`; hence a help
request that is not `active` never reverts to `active` under any
sequence of the app's status updates. -/
theorem helpRequest_never_reverts_to_active (db : DB) (ops : List UpdateOp) (rid : Nat)
    (h : ∀ r ∈ db.help_requests, r.id = rid → r.event_status ≠ EventStatus.active) :
    ∀ r ∈ (applyStatusUpdates db ops).help_requests, r.id = rid →
      r.event_status ≠ EventStatus.active := by
  induction ops generalizing db with
  | nil => simpa [applyStatusUpdates] using h
  | cons op ops ih =>
    have hstep : ∀ r ∈ (updateHelpRequestStatus db op.helpRequestId op.status op.userId
        op.notes op.now).help_requests,
        r.id = rid → r.event_status ≠ EventStatus.active := by
      intro r hr hid
      obtain ⟨r0, hr0, heq⟩ := mem_updateHelpRequestStatus hr
      by_cases hc : r0.id = op.helpRequestId
      · rw [if_pos hc] at heq
        rw [← heq, applyHelpRequestUpdate_event_status]
        exact UpdateStatus.toEventStatus_ne_active op.status
      · rw [if_neg hc] at heq
        exact h r0 hr0 (heq ▸ hid) |>.imp fun hh => heq ▸ hh
    have : applyStatusUpdates db (op :: ops) =
        applyStatusUpdates (updateHelpRequestStatus db op.helpRequestId op.status
          op.userId op.notes op.now) ops := rfl
    rw [this]
    exact ih _ hstep

/-- Claim C6: a status update carrying a non-empty note stores it
verbatim, overwriting whatever note was stored before; after two
successive saves on the same request the stored note is the one written
last. -/
theorem notes_last_write_wins (db : DB) (rid : Nat) (s1 s2 : UpdateStatus)
    (u1 u2 : Nat) (n1 n2 : String) (t1 t2 : String) (h2 : n2 ≠ "") :
    ∀ r ∈ (updateHelpRequestStatus
            (updateHelpRequestStatus db rid s1 u1 (some n1) t1)
            rid s2 u2 (some n2) t2).help_requests,
      r.id = rid → r.notes = some n2 := by
  intro r hr hid
  obtain ⟨r0, _, heq⟩ := mem_updateHelpRequestStatus hr
  by_cases hc : r0.id = rid
  · rw [if_pos hc] at heq
    rw [← heq]
    exact applyHelpRequestUpdate_notes s2 u2 n2 t2 r0 h2
  · rw [if_neg hc] at heq
    exact absurd (heq ▸ hid) hc

/-- Claim C9: `updateHelpRequestStatus` never inspects the row's current
state: every targeted row ends at the requested status, whatever its
prior `event_status` was — in particular a `resolved` request is moved
back to `responded_to` by a save-notes call. -/
theorem updateHelpRequestStatus_unconditional (db : DB) (rid : Nat) (st : UpdateStatus)
    (u : Nat) (n : Option String) (t : String) :
    ∀ r ∈ (updateHelpRequestStatus db rid st u n t).help_requests,
      r.id = rid → r.event_status = st.toEventStatus := by
  intro r hr hid
  obtain ⟨r0, _, heq⟩ := mem_updateHelpRequestStatus hr
  by_cases hc : r0.id = rid
  · rw [if_pos hc] at heq
    rw [← heq]
    exact applyHelpRequestUpdate_event_status st u n t r0
  · rw [if_neg hc] at heq
    exact absurd (heq ▸ hid) hc

/-- Claim C10: `updateHelpRequestStatus` leaves non-targeted rows
untouched, and on the targeted row modifies only `event_status`,
`responded_by`, `responded_at`, `resolved_at` and `notes`:
`responded_by`/`responded_at` are written only for `responded_to`,
`resolved_at` only for `resolved`/`false_alarm`, and absent or empty
notes leave the stored notes unchanged. -/
theorem updateHelpRequestStatus_frame (db : DB) (rid : Nat) (st : UpdateStatus)
    (u : Nat) (n : Option String) (t : String) :
    (∀ r ∈ db.help_requests, r.id ≠ rid →
        r ∈ (updateHelpRequestStatus db rid st u n t).help_requests) ∧
    (∀ r ∈ db.help_requests, r.id = rid →
        ∃ r' ∈ (updateHelpRequestStatus db rid st u n t).help_requests,
          r'.id = r.id ∧
          r'.wearer_id = r.wearer_id ∧
          r'.device_id = r.device_id ∧
          r'.request_type = r.request_type ∧
          r'.fall_response = r.fall_response ∧
          r'.location_latitude = r.location_latitude ∧
          r'.location_longitude = r.location_longitude ∧
          r'.location_accuracy = r.location_accuracy ∧
          r'.location_timestamp = r.location_timestamp ∧
          r'.created_at = r.created_at ∧
          r'.event_status = st.toEventStatus ∧
          r'.responded_by = (if st = UpdateStatus.responded_to then some u else r.responded_by) ∧
          r'.responded_at = (if st = UpdateStatus.responded_to then some t else r.responded_at) ∧
          r'.resolved_at = (if st = UpdateStatus.responded_to then r.resolved_at else some t) ∧
          r'.notes = (match n with
                      | some s => if s = "" then r.notes else some s
                      | none => r.notes)) := by
  constructor
  · intro r hr hne
    have hm := List.mem_map_of_mem
      (fun r0 => if r0.id = rid then applyHelpRequestUpdate st u n t r0 else r0) hr
    simp only [if_neg hne] at hm
    simpa [updateHelpRequestStatus] using hm
  · intro r hr hid
    refine ⟨applyHelpRequestUpdate st u n t r, ?_, ?_⟩
    · have hm := List.mem_map_of_mem
        (fun r0 => if r0.id = rid then applyHelpRequestUpdate st u n t r0 else r0) hr
      simp only [if_pos hid] at hm
      simpa [updateHelpRequestStatus] using hm
    · cases st <;> rcases n with _ | s <;>
        simp [applyHelpRequestUpdate, UpdateStatus.toEventStatus] <;>
        split <;> simp_all

/-! ## Witness data for the help-request theorems -/

/-- A sample help request already in the terminal state `resolved`. -/
def hrSample : HelpRequestRow :=
  { id := 5
    wearer_id := 1
    device_id := some 2
    request_type := RequestType.fall
    event_status := EventStatus.resolved
    fall_response := some FallResponse.confirmed
    location_latitude := some 10
    location_longitude := some 20
    location_accuracy := some 3
    location_timestamp := some "2025-01-01T00:00:05Z"
    responded_by := none
    responded_at := none
    resolved_at := some "2025-01-01T00:10:00Z"
    notes := some "earlier note"
    created_at := "2025-01-01T00:00:00Z" }

/-- A sample database holding just `hrSample`. -/
def hrDb : DB :=
  { wearers := []
    devices := []
    users := []
    assignments := []
    help_requests := [hrSample]
    wearer_settings := []
    nextId := 100 }

/-- Witness for C5: a concrete non-active request stays non-active under
a concrete update sequence. -/
theorem helpRequest_never_reverts_to_active_witness :
    (∀ r ∈ hrDb.help_requests, r.id = 5 → r.event_status ≠ EventStatus.active) ∧
    (∀ r ∈ (applyStatusUpdates hrDb
        [{ helpRequestId := 5, status := UpdateStatus.responded_to, userId := 9,
           notes := some "checking in", now := "2025-01-02T00:00:00Z" }]).help_requests,
      r.id = 5 → r.event_status ≠ EventStatus.active) :=
  ⟨by decide, helpRequest_never_reverts_to_active hrDb _ 5 (by decide)⟩

/-- Witness for C6: after two concrete saves the stored note is the one
written last. -/
theorem notes_last_write_wins_witness :
    ("final note" ≠ "") ∧
    (∀ r ∈ (updateHelpRequestStatus
            (updateHelpRequestStatus hrDb 5 UpdateStatus.responded_to 9
              (some "first note") "t1")
            5 UpdateStatus.resolved 9 (some "final note") "t2").help_requests,
      r.id = 5 → r.notes = some "final note") :=
  ⟨by decide,
    notes_last_write_wins hrDb 5 UpdateStatus.responded_to UpdateStatus.resolved
      9 9 "first note" "final note" "t1" "t2" (by decide)⟩

/-- Witness for C9: the concrete request is already `resolved`, yet a
save-notes call moves it back to `responded_to`. -/
theorem updateHelpRequestStatus_unconditional_witness :
    (∀ r ∈ hrDb.help_requests, r.id = 5 → r.event_status = EventStatus.resolved) ∧
    (∀ r ∈ (updateHelpRequestStatus hrDb 5 UpdateStatus.responded_to 9
        (some "note") "t1").help_requests,
      r.id = 5 → r.event_status = UpdateStatus.responded_to.toEventStatus) :=
  ⟨by decide, updateHelpRequestStatus_unconditional hrDb 5 UpdateStatus.responded_to 9
    (some "note") "t1"⟩

/-- Witness for C10: the frame theorem applied to the concrete request,
with the untouched fields listed explicitly. -/
theorem updateHelpRequestStatus_frame_witness :
    hrSample ∈ hrDb.help_requests ∧ hrSample.id = 5 ∧
    ∃ r' ∈ (updateHelpRequestStatus hrDb 5 UpdateStatus.resolved 9 none
        "t3").help_requests,
      r'.id = hrSample.id ∧
      r'.wearer_id = hrSample.wearer_id ∧
      r'.device_id = hrSample.device_id ∧
      r'.request_type = hrSample.request_type ∧
      r'.fall_response = hrSample.fall_response ∧
      r'.location_latitude = hrSample.location_latitude ∧
      r'.location_longitude = hrSample.location_longitude ∧
      r'.location_accuracy = hrSample.location_accuracy ∧
      r'.location_timestamp = hrSample.location_timestamp ∧
      r'.created_at = hrSample.created_at ∧
      r'.event_status = UpdateStatus.resolved.toEventStatus ∧
      r'.responded_by = hrSample.responded_by ∧
      r'.responded_at = hrSample.responded_at ∧
      r'.resolved_at = some "t3" ∧
      r'.notes = hrSample.notes :=
  ⟨by decide, by decide,
    (updateHelpRequestStatus_frame hrDb 5 UpdateStatus.resolved 9 none "t3").2
      hrSample (by decide) (by decide)⟩

/-! ## Claim theorems: wearer registration -/

/-- Claim C1: when the device row carrying the requested code is already
bound to a wearer, `createWearer` fails with the specific conflict
message and returns the database unchanged (the check happens before any
write). -/
theorem createWearer_conflict (db : DB) (userProfile : UserRow)
    (wearerData : CreateWearerData) (env : Env) (acc : Nat) (d : DeviceRow) (w : Nat)
    (hacc : userProfile.safeloop_account_id = some acc)
    (hfind : (db.devices.find? fun dd =>
        dd.seven_digit_code = wearerData.seven_digit_code) = some d)
    (hbound : d.wearer_id = some w) :
    createWearer db userProfile wearerData env =
      (Except.error "This device code is already registered to another wearer", db) := by
  simp [createWearer, hacc, hfind, hbound]

/-- Witness data: a profile in account 1. -/
def cwProfile : UserRow :=
  { id := 7
    auth_user_id := "auth-7"
    safeloop_account_id := some 1
    email := "admin@example.com"
    display_name := some "Admin"
    phone_number := none
    user_type := UserType.caregiver_admin
    is_active := true
    timezone := "UTC"
    created_at := "2025-01-01"
    updated_at := "2025-01-01" }

/-- Witness data: a device bound to wearer 1. -/
def boundDevice : DeviceRow :=
  { id := 2
    device_uuid := "uuid-2"
    seven_digit_code := "7654321"
    wearer_id := some 1
    is_verified := true
    device_model := none
    last_seen := none
    updated_at := "2025-01-01" }

/-- Witness data: the wearer that already owns device code 7654321. -/
def existingWearerRow : WearerRow :=
  { id := 1
    safeloop_account_id := 1
    name := "Existing"
    date_of_birth := none
    gender := none
    medical_conditions := none
    medications := none
    allergies := none
    emergency_notes := none
    wearer_contact_phone := none
    created_at := "2025-01-01"
    updated_at := "2025-01-01" }

/-- Witness data: a database in which code 7654321 is already bound. -/
def boundDb : DB :=
  { wearers := [existingWearerRow]
    devices := [boundDevice]
    users := [cwProfile]
    assignments := []
    help_requests := []
    wearer_settings := []
    nextId := 10 }

/-- Witness data: a registration request reusing the bound code. -/
def boundData : CreateWearerData :=
  { name := "Second", date_of_birth := none, seven_digit_code := "7654321" }

/-- Witness data: a benign environment. -/
def okEnv : Env :=
  { now := "2025-01-02", tempUuid := "temp-123-abc", deviceWriteError := none }

/-- Witness for C1: the concrete second registration fails with the
conflict message and leaves the database untouched. -/
theorem createWearer_conflict_witness :
    cwProfile.safeloop_account_id = some 1 ∧
    (boundDb.devices.find? fun dd =>
        dd.seven_digit_code = boundData.seven_digit_code) = some boundDevice ∧
    boundDevice.wearer_id = some 1 ∧
    createWearer boundDb cwProfile boundData okEnv =
      (Except.error "This device code is already registered to another wearer", boundDb) :=
  ⟨rfl, by decide, rfl,
    createWearer_conflict boundDb cwProfile boundData okEnv 1 boundDevice 1
      rfl (by decide) rfl⟩

/-- Claim C3: when the device update/insert step fails after the wearer
row was created, `createWearer` deletes that wearer again and rethrows
the error, so no new wearer (and no device change) is observable. -/
theorem createWearer_compensating_delete (db : DB) (userProfile : UserRow)
    (wearerData : CreateWearerData) (env : Env) (acc : Nat) (e : String)
    (hacc : userProfile.safeloop_account_id = some acc)
    (hnb : ∀ d, (db.devices.find? fun dd =>
        dd.seven_digit_code = wearerData.seven_digit_code) = some d → d.wearer_id = none)
    (hfail : env.deviceWriteError = some e)
    (hfresh : ∀ w ∈ db.wearers, w.id ≠ db.nextId) :
    (createWearer db userProfile wearerData env).1 = Except.error e ∧
    (createWearer db userProfile wearerData env).2.wearers = db.wearers ∧
    (createWearer db userProfile wearerData env).2.devices = db.devices := by
  have h1 : List.filter (fun w => !decide (w.id = db.nextId)) db.wearers = db.wearers :=
    List.filter_eq_self.mpr (fun a ha => by simpa using hfresh a ha)
  have h2 : List.filter (fun w => !decide (w.id = db.nextId))
      [newWearerRow acc wearerData env db.nextId] = ([] : List WearerRow) := by
    simp [newWearerRow]
  cases hcase : db.devices.find? fun dd =>
      dd.seven_digit_code = wearerData.seven_digit_code with
  | none =>
    refine ⟨?_, ?_, ?_⟩ <;> simp [createWearer, hacc, hcase, hfail, h1, h2]
  | some d =>
    have hd := hnb d hcase
    refine ⟨?_, ?_, ?_⟩ <;> simp [createWearer, hacc, hcase, hd, hfail, h1, h2]

/-- Witness data: an environment in which the device write step fails. -/
def failEnv : Env :=
  { now := "2025-01-02", tempUuid := "temp-9-xyz", deviceWriteError := some "device step failed" }

/-- Witness data: a database with no device row for code 1234567. -/
def emptyDevicesDb : DB :=
  { wearers := []
    devices := []
    users := [cwProfile]
    assignments := []
    help_requests := []
    wearer_settings := []
    nextId := 10 }

/-- Witness data: a registration request for code 1234567. -/
def freshData : CreateWearerData :=
  { name := "New Wearer", date_of_birth := some "1950-12-25", seven_digit_code := "1234567" }

/-- Witness for C3: with a concrete injected device-step failure the call
errors out and the database shows no new wearer. -/
theorem createWearer_compensating_delete_witness :
    cwProfile.safeloop_account_id = some 1 ∧
    failEnv.deviceWriteError = some "device step failed" ∧
    (createWearer emptyDevicesDb cwProfile freshData failEnv).1 =
      Except.error "device step failed" ∧
    (createWearer emptyDevicesDb cwProfile freshData failEnv).2.wearers =
      emptyDevicesDb.wearers ∧
    (createWearer emptyDevicesDb cwProfile freshData failEnv).2.devices =
      emptyDevicesDb.devices :=
  ⟨rfl, rfl,
    (createWearer_compensating_delete emptyDevicesDb cwProfile freshData failEnv 1
      "device step failed" rfl (by decide) rfl (by decide)).1,
    (createWearer_compensating_delete emptyDevicesDb cwProfile freshData failEnv 1
      "device step failed" rfl (by decide) rfl (by decide)).2.1,
    (createWearer_compensating_delete emptyDevicesDb cwProfile freshData failEnv 1
      "device step failed" rfl (by decide) rfl (by decide)).2.2⟩

/-- `find?` skips a prefix on which the predicate is false. -/
lemma find?_append_of_none {α : Type} {p : α → Bool} {l1 l2 : List α}
    (h : ∀ x ∈ l1, p x = false) : (l1 ++ l2).find? p = l2.find? p := by
  rw [List.find?_append, List.find?_eq_none.mpr (fun x hx => by simp [h x hx])]
  rfl

/-- Binding the unbound device `d` to a fresh wearer id and then
collecting the devices bound to that id yields exactly the updated `d`,
provided device ids are unique and no device was bound to the fresh id
before. -/
lemma filter_bind_map (l : List DeviceRow) (d : DeviceRow) (wid : Nat)
    (hmem : d ∈ l) (hnodup : (l.map DeviceRow.id).Nodup)
    (hfree : ∀ dd ∈ l, dd.wearer_id ≠ some wid) :
    ((l.map fun dd => if dd.id = d.id then { dd with wearer_id := some wid } else dd).filter
        fun dd => dd.wearer_id = some wid) = [{ d with wearer_id := some wid }] := by
  induction l with
  | nil => cases hmem
  | cons x xs ih =>
    rw [List.map_cons] at hnodup
    rcases List.mem_cons.mp hmem with heq | hx
    · subst heq
      have htail : ((xs.map fun dd =>
          if dd.id = d.id then { dd with wearer_id := some wid } else dd).filter
            fun dd => dd.wearer_id = some wid) = [] := by
        apply List.filter_eq_nil_iff.mpr
        intro y hy
        rcases List.mem_map.mp hy with ⟨dd, hdd, rfl⟩
        have hne : dd.id ≠ d.id := by
          intro hcontra
          exact (List.nodup_cons.mp hnodup).1 (hcontra ▸ List.mem_map_of_mem DeviceRow.id hdd)
        rw [if_neg hne]
        simpa using hfree dd (List.mem_cons_of_mem d hdd)
      rw [List.map_cons, List.filter_cons]
      simp [htail]
    · have hxid : x.id ≠ d.id := by
        intro hcontra
        have : d.id ∈ xs.map DeviceRow.id := List.mem_map_of_mem DeviceRow.id hx
        exact (List.nodup_cons.mp hnodup).1 (hcontra ▸ this)
      rw [List.map_cons, List.filter_cons, if_neg hxid]
      have hxp : ¬ (x.wearer_id = some wid) := hfree x (List.mem_cons_self x xs)
      rw [if_neg (by simpa using hxp)]
      exact ih hx (List.nodup_cons.mp hnodup).2 fun dd hdd =>
        hfree dd (List.mem_cons_of_mem x hdd)

/-- Claim C4, amended: for a well-formed seven-digit code whose device
row is not bound to any wearer, `createWearer` succeeds and the returned
wearer carries exactly one device with that code; the device's
`is_verified` flag is false whenever the device row is newly created
(no row with the code existed), while a pre-existing unbound row keeps
its flag. -/
theorem createWearer_success (db : DB) (userProfile : UserRow)
    (wearerData : CreateWearerData) (env : Env) (acc : Nat)
    (hcode : isSevenDigitCode wearerData.seven_digit_code = true)
    (hacc : userProfile.safeloop_account_id = some acc)
    (hnb : ∀ d, (db.devices.find? fun dd =>
        dd.seven_digit_code = wearerData.seven_digit_code) = some d → d.wearer_id = none)
    (hok : env.deviceWriteError = none)
    (hfreshW : ∀ w ∈ db.wearers, w.id ≠ db.nextId)
    (hfreshD : ∀ d ∈ db.devices, d.wearer_id ≠ some db.nextId)
    (hnodup : (db.devices.map DeviceRow.id).Nodup) :
    ∃ w : Wearer,
      (createWearer db userProfile wearerData env).1 = Except.ok w ∧
      w.device.length = 1 ∧
      (∀ di ∈ w.device, di.seven_digit_code = wearerData.seven_digit_code) ∧
      ((db.devices.find? fun dd =>
          dd.seven_digit_code = wearerData.seven_digit_code) = none →
        ∀ di ∈ w.device, di.is_verified = false) := by
  have hfW : ∀ l2 : List WearerRow,
      ((db.wearers ++ l2).find? fun w => w.id = db.nextId) =
        l2.find? fun w => w.id = db.nextId :=
    fun l2 => find?_append_of_none fun x hx => by simpa using hfreshW x hx
  have hfD : (db.devices.filter fun dd => dd.wearer_id = some db.nextId) = [] :=
    List.filter_eq_nil_iff.mpr fun dd hdd => by simpa using hfreshD dd hdd
  cases hcase : db.devices.find? fun dd =>
      dd.seven_digit_code = wearerData.seven_digit_code with
  | none =>
    refine ⟨⟨newWearerRow acc wearerData env db.nextId,
      [⟨db.nextId + 1, wearerData.seven_digit_code, none, false, none⟩]⟩, ?_, by simp, ?_, ?_⟩
    · simp only [createWearer, hacc, hcase, hok, getWearerById]
      rw [hfW]
      simp [List.find?_cons, newWearerRow, List.filter_append, hfD, DeviceRow.toInfo]
    · intro di hdi
      rw [List.mem_singleton] at hdi
      rw [hdi]
    · intro _ di hdi
      rw [List.mem_singleton] at hdi
      rw [hdi]
  | some d =>
    have hd : d.wearer_id = none := hnb d hcase
    have hcd : d.seven_digit_code = wearerData.seven_digit_code := by
      simpa using List.find?_some hcase
    have hmem : d ∈ db.devices := List.mem_of_find?_eq_some hcase
    refine ⟨⟨newWearerRow acc wearerData env db.nextId,
      [DeviceRow.toInfo { d with wearer_id := some db.nextId }]⟩, ?_, by simp, ?_, ?_⟩
    · simp only [createWearer, hacc, hcase, hd, hok, getWearerById]
      rw [hfW]
      rw [filter_bind_map db.devices d db.nextId hmem hnodup hfreshD]
      simp [List.find?_cons, newWearerRow]
    · intro di hdi
      rw [List.mem_singleton] at hdi
      rw [hdi]
      simpa [DeviceRow.toInfo] using hcd
    · intro hnone
      exact absurd hnone (by simp)

/-- Witness for C4: registering a fresh code in a concrete database
succeeds with exactly one device carrying the code, unverified. -/
theorem createWearer_success_witness :
    isSevenDigitCode freshData.seven_digit_code = true ∧
    ∃ w : Wearer,
      (createWearer emptyDevicesDb cwProfile freshData okEnv).1 = Except.ok w ∧
      w.device.length = 1 ∧
      (∀ di ∈ w.device, di.seven_digit_code = freshData.seven_digit_code) ∧
      ((emptyDevicesDb.devices.find? fun dd =>
          dd.seven_digit_code = freshData.seven_digit_code) = none →
        ∀ di ∈ w.device, di.is_verified = false) :=
  ⟨by decide,
    createWearer_success emptyDevicesDb cwProfile freshData okEnv 1 (by decide) rfl
      (fun d h => Option.noConfusion h) rfl (by decide) (by decide) (by decide)⟩

/-- Counterexample data: an unbound but already verified device row
carrying code 1234567 (the watch phoned home and was verified before any
wearer registration). -/
def verifiedUnboundDevice : DeviceRow :=
  { id := 3
    device_uuid := "watch-uuid-3"
    seven_digit_code := "1234567"
    wearer_id := none
    is_verified := true
    device_model := none
    last_seen := some "2025-01-01"
    updated_at := "2025-01-01" }

/-- Counterexample data: a database holding only that device. -/
def verifiedUnboundDb : DB :=
  { wearers := []
    devices := [verifiedUnboundDevice]
    users := [cwProfile]
    assignments := []
    help_requests := []
    wearer_settings := []
    nextId := 10 }

/-- Claim C4 counterexample: code 1234567 matches the seven-digit format
and is bound to no wearer, yet the hydrated wearer `createWearer`
returns carries its one device with `is_verified = true`, because the
pre-existing unbound row keeps its flag when it is bound — refuting the
claim that the returned device's `is_verified` equals false. -/
theorem createWearer_verified_flag_cex :
    isSevenDigitCode freshData.seven_digit_code = true ∧
    (∀ d ∈ verifiedUnboundDb.devices, d.wearer_id = none) ∧
    ((createWearer verifiedUnboundDb cwProfile freshData okEnv).1.toOption.map
        fun w => w.device.map fun di => (di.seven_digit_code, di.is_verified)) =
      some [("1234567", true)] := by
  refine ⟨by decide, by decide, ?_⟩
  rfl

/-! ## Claim theorems: wearer deletion -/

/-- Claim C2, amended: the `delete_wearer_safely` database function —
defined by create_delete_function.js but not invoked by the client's
`deleteWearer` — unbinds the wearer's devices (each row survives with
`wearer_id` null), deletes its assignments, help requests and settings,
and makes the wearer id unresolvable, in one atomic SQL function. -/
theorem delete_wearer_safely_spec (db : DB) (wearerId : Nat) (now : String)
    (hex : ∃ w ∈ db.wearers, w.id = wearerId) :
    (delete_wearer_safely db wearerId now).1 = true ∧
    (delete_wearer_safely db wearerId now).2.devices =
      (db.devices.map fun d =>
        if d.wearer_id = some wearerId then { d with wearer_id := none, updated_at := now }
        else d) ∧
    (∀ d ∈ (delete_wearer_safely db wearerId now).2.devices, d.wearer_id ≠ some wearerId) ∧
    (delete_wearer_safely db wearerId now).2.devices.length = db.devices.length ∧
    (∀ a ∈ (delete_wearer_safely db wearerId now).2.assignments, a.wearer_id ≠ wearerId) ∧
    (∀ h ∈ (delete_wearer_safely db wearerId now).2.help_requests, h.wearer_id ≠ wearerId) ∧
    (∀ s ∈ (delete_wearer_safely db wearerId now).2.wearer_settings, s.wearer_id ≠ wearerId) ∧
    ((delete_wearer_safely db wearerId now).2.wearers.find? fun w => w.id = wearerId) = none := by
  have hany : (db.wearers.any fun w => w.id = wearerId) = true :=
    List.any_eq_true.mpr (by obtain ⟨w, hw, hid⟩ := hex; exact ⟨w, hw, by simp [hid]⟩)
  unfold delete_wearer_safely
  rw [if_pos hany]
  refine ⟨rfl, rfl, ?_, ?_, ?_, ?_, ?_, ?_⟩
  · intro d hd
    rcases List.mem_map.mp hd with ⟨d0, _, rfl⟩
    by_cases hb : d0.wearer_id = some wearerId
    · simp [hb]
    · simp [hb]
  · simp
  · intro a ha
    simpa using (List.mem_filter.mp ha).2
  · intro h hh
    simpa using (List.mem_filter.mp hh).2
  · intro s hs
    simpa using (List.mem_filter.mp hs).2
  · apply List.find?_eq_none.mpr
    intro w hw
    simpa using (List.mem_filter.mp hw).2

/-- Witness for C2 (amended): the safe-delete function applied to the
concrete database in which wearer 1 owns a bound device. -/
theorem delete_wearer_safely_spec_witness :
    (∃ w ∈ boundDb.wearers, w.id = 1) ∧
    ((delete_wearer_safely boundDb 1 "t9").1 = true ∧
     (delete_wearer_safely boundDb 1 "t9").2.devices =
       (boundDb.devices.map fun d =>
         if d.wearer_id = some 1 then { d with wearer_id := none, updated_at := "t9" }
         else d) ∧
     (∀ d ∈ (delete_wearer_safely boundDb 1 "t9").2.devices, d.wearer_id ≠ some 1) ∧
     (delete_wearer_safely boundDb 1 "t9").2.devices.length = boundDb.devices.length ∧
     (∀ a ∈ (delete_wearer_safely boundDb 1 "t9").2.assignments, a.wearer_id ≠ 1) ∧
     (∀ h ∈ (delete_wearer_safely boundDb 1 "t9").2.help_requests, h.wearer_id ≠ 1) ∧
     (∀ s ∈ (delete_wearer_safely boundDb 1 "t9").2.wearer_settings, s.wearer_id ≠ 1) ∧
     ((delete_wearer_safely boundDb 1 "t9").2.wearers.find? fun w => w.id = 1) = none) :=
  ⟨⟨existingWearerRow, by decide, rfl⟩,
    delete_wearer_safely_spec boundDb 1 "t9" ⟨existingWearerRow, by decide, rfl⟩⟩

/-- Claim C2 counterexample: under the operation the app actually invokes
(`userService.deleteWearer`), deleting wearer 1 from the concrete
database removes the bound device row entirely — no device row survives
unbound, refuting the claim for the app's delete-wearer operation. -/
theorem deleteWearer_device_deleted_cex :
    boundDb.devices = [boundDevice] ∧
    boundDevice.wearer_id = some 1 ∧
    (deleteWearer boundDb 1).devices = [] ∧
    (deleteWearer boundDb 1).wearers = [] := by
  refine ⟨rfl, rfl, ?_, ?_⟩ <;> rfl

/-! ## Claim theorems: realtime subscription lifecycle -/

/-- Claim C8 evaluation at the failing input: mounting HomeScreen with an
account-carrying profile and then unmounting leaves the help-requests
channel subscribed — the `useEffect` body discards the cleanup closure
`setupRealtimeSubscription` returns (which, had it been registered,
would have emptied the subscription list) and registers none itself. -/
theorem homeScreen_listener_survives_unmount :
    mountThenUnmount (homeScreenEffect true) [] = [helpRequestsChannel] ∧
    ((setupRealtimeSubscription true []).2.map
        fun cl => cl (setupRealtimeSubscription true []).1) = some [] :=
  ⟨rfl, rfl⟩

/-! ## Claim theorems: caregiver assignment partition -/

/-- `getAssignedCaregivers` with the empty-list shortcut folded away. -/
lemma getAssignedCaregivers_eq (db : DB) (wearerId : Nat) :
    getAssignedCaregivers db wearerId =
      (db.assignments.filter fun a => a.wearer_id = wearerId).map
        (assignmentEntry
          ((db.users.filter fun u => u.id ∈
            ((db.assignments.filter fun a => a.wearer_id = wearerId).map
              fun a => a.caregiver_user_id)).map UserRow.toCaregiverInfo)) := by
  unfold getAssignedCaregivers
  by_cases h : ((db.assignments.filter fun a => a.wearer_id = wearerId).isEmpty = true)
  · rw [if_pos h, List.isEmpty_iff.mp h]
    rfl
  · rw [if_neg h]

/-- The id of a joined assignment entry is the id of the first fetched
caregiver matching the assignment, when one exists. -/
lemma assignmentEntry_id (caregivers : List CaregiverInfo) (a : AssignmentRow) :
    (assignmentEntry caregivers a).id =
      (caregivers.find? fun c => c.id = a.caregiver_user_id).map (fun c => c.id) := rfl

/-- Claim C7: the available and assigned caregiver sets of a wearer are
disjoint by profile id, and their union by id is exactly the account's
caregiver profiles — under the spec's own invariant that an assignment
never references a profile of another account. -/
theorem caregiver_sets_partition (db : DB) (userProfile : UserRow) (wearerId : Nat)
    (acc : Nat) (avail : List CaregiverInfo)
    (hacc : userProfile.safeloop_account_id = some acc)
    (havail : getAvailableCaregivers db userProfile wearerId = Except.ok avail)
    (hsame : ∀ a ∈ db.assignments, a.wearer_id = wearerId →
        ∀ u ∈ db.users, u.id = a.caregiver_user_id → u.safeloop_account_id = some acc) :
    (∀ c ∈ avail, ∀ ac ∈ getAssignedCaregivers db wearerId, ac.id ≠ some c.id) ∧
    (∀ x : Nat,
      ((∃ c ∈ avail, c.id = x) ∨ (∃ ac ∈ getAssignedCaregivers db wearerId, ac.id = some x)) ↔
        ∃ u ∈ db.users, u.safeloop_account_id = some acc ∧ u.id = x) := by
  have h0 : getAvailableCaregivers db userProfile wearerId = Except.ok
      (((db.users.filter fun u => u.safeloop_account_id = some acc).map
          UserRow.toCaregiverInfo).filter
        fun c => c.id ∉ ((db.assignments.filter fun a => a.wearer_id = wearerId).map
          fun a => a.caregiver_user_id)) := by
    unfold getAvailableCaregivers
    rw [hacc]
  have havail' : avail =
      ((db.users.filter fun u => u.safeloop_account_id = some acc).map
          UserRow.toCaregiverInfo).filter
        fun c => c.id ∉ ((db.assignments.filter fun a => a.wearer_id = wearerId).map
          fun a => a.caregiver_user_id) := by
    rw [h0] at havail
    exact (Except.ok.inj havail).symm
  constructor
  · intro c hc ac hac heq
    rw [havail'] at hc
    have hcnot : c.id ∉ ((db.assignments.filter fun a => a.wearer_id = wearerId).map
        fun a => a.caregiver_user_id) :=
      of_decide_eq_true (List.mem_filter.mp hc).2
    rw [getAssignedCaregivers_eq] at hac
    rcases List.mem_map.mp hac with ⟨a, ha, rfl⟩
    rw [assignmentEntry_id] at heq
    rcases Option.map_eq_some'.mp heq with ⟨cg, hfind, hcgid⟩
    have hcga : cg.id = a.caregiver_user_id := by
      simpa using List.find?_some hfind
    apply hcnot
    have hmm : a.caregiver_user_id ∈
        ((db.assignments.filter fun a => a.wearer_id = wearerId).map
          fun a => a.caregiver_user_id) := List.mem_map_of_mem _ ha
    rwa [← hcga, hcgid] at hmm
  · intro x
    constructor
    · rintro (⟨c, hc, rfl⟩ | ⟨ac, hac, hacid⟩)
      · rw [havail'] at hc
        have hc1 := List.mem_filter.mp hc
        rcases List.mem_map.mp hc1.1 with ⟨u, hu, rfl⟩
        exact ⟨u, (List.mem_filter.mp hu).1,
          of_decide_eq_true (List.mem_filter.mp hu).2, rfl⟩
      · rw [getAssignedCaregivers_eq] at hac
        rcases List.mem_map.mp hac with ⟨a, ha, rfl⟩
        rw [assignmentEntry_id] at hacid
        rcases Option.map_eq_some'.mp hacid with ⟨cg, hfind, hcgid⟩
        have hcga : cg.id = a.caregiver_user_id := by
          simpa using List.find?_some hfind
        rcases List.mem_map.mp (List.mem_of_find?_eq_some hfind) with ⟨u, hu, rfl⟩
        have humem : u ∈ db.users := (List.mem_filter.mp hu).1
        have ha' := List.mem_filter.mp ha
        have huid : u.id = a.caregiver_user_id := hcga
        have hacct := hsame a ha'.1 (of_decide_eq_true ha'.2) u humem huid
        exact ⟨u, humem, hacct, hcgid⟩
    · rintro ⟨u, hu, hacct, rfl⟩
      by_cases hin : u.id ∈ ((db.assignments.filter fun a => a.wearer_id = wearerId).map
          fun a => a.caregiver_user_id)
      · right
        rcases List.mem_map.mp hin with ⟨a, ha, haid⟩
        refine ⟨assignmentEntry
          ((db.users.filter fun uu => uu.id ∈
            ((db.assignments.filter fun a => a.wearer_id = wearerId).map
              fun a => a.caregiver_user_id)).map UserRow.toCaregiverInfo) a, ?_, ?_⟩
        · rw [getAssignedCaregivers_eq]
          exact List.mem_map_of_mem _ ha
        · have hcg : u.toCaregiverInfo ∈
              (db.users.filter fun uu => uu.id ∈
                ((db.assignments.filter fun a => a.wearer_id = wearerId).map
                  fun a => a.caregiver_user_id)).map UserRow.toCaregiverInfo :=
            List.mem_map_of_mem _ (List.mem_filter.mpr ⟨hu, decide_eq_true hin⟩)
          have hex : ∃ cg ∈ (db.users.filter fun uu => uu.id ∈
              ((db.assignments.filter fun a => a.wearer_id = wearerId).map
                fun a => a.caregiver_user_id)).map UserRow.toCaregiverInfo,
              (fun c => decide (c.id = a.caregiver_user_id)) cg = true :=
            ⟨u.toCaregiverInfo, hcg, decide_eq_true haid.symm⟩
          obtain ⟨cg, hfind⟩ := Option.isSome_iff_exists.mp (List.find?_isSome.mpr hex)
          have hcga : cg.id = a.caregiver_user_id := by
            simpa using List.find?_some hfind
          rw [assignmentEntry_id, hfind]
          show some cg.id = some u.id
          rw [hcga, haid]
      · left
        refine ⟨u.toCaregiverInfo, ?_, rfl⟩
        rw [havail']
        apply List.mem_filter.mpr
        refine ⟨List.mem_map_of_mem _ (List.mem_filter.mpr ⟨hu, decide_eq_true hacct⟩), ?_⟩
        exact decide_eq_true hin

/-- Witness data: caregiver 10 in account 1, assigned to wearer 5. -/
def cgU1 : UserRow :=
  { id := 10
    auth_user_id := "auth-10"
    safeloop_account_id := some 1
    email := "c1@example.com"
    display_name := some "Caregiver One"
    phone_number := none
    user_type := UserType.caregiver
    is_active := true
    timezone := "UTC"
    created_at := "2025-01-01"
    updated_at := "2025-01-01" }

/-- Witness data: caregiver 11 in account 1, not assigned. -/
def cgU2 : UserRow :=
  { id := 11
    auth_user_id := "auth-11"
    safeloop_account_id := some 1
    email := "c2@example.com"
    display_name := some "Caregiver Two"
    phone_number := none
    user_type := UserType.caregiver
    is_active := true
    timezone := "UTC"
    created_at := "2025-01-01"
    updated_at := "2025-01-01" }

/-- Witness data: the assignment of caregiver 10 to wearer 5. -/
def asgRow : AssignmentRow :=
  { id := 20
    caregiver_user_id := 10
    wearer_id := 5
    relationship_type := "family"
    is_primary := false
    is_emergency_contact := false }

/-- Witness data: the database for the partition witness. -/
def cgDb : DB :=
  { wearers := []
    devices := []
    users := [cgU1, cgU2]
    assignments := [asgRow]
    help_requests := []
    wearer_settings := []
    nextId := 30 }

/-- Witness for C7: in the concrete database with caregivers 10 and 11
and only 10 assigned to wearer 5, the available list is exactly
caregiver 11, disjoint from the assigned list, and together they cover
the account. -/
theorem caregiver_sets_partition_witness :
    cwProfile.safeloop_account_id = some 1 ∧
    getAvailableCaregivers cgDb cwProfile 5 = Except.ok [cgU2.toCaregiverInfo] ∧
    ((∀ c ∈ [cgU2.toCaregiverInfo], ∀ ac ∈ getAssignedCaregivers cgDb 5, ac.id ≠ some c.id) ∧
     (∀ x : Nat,
       ((∃ c ∈ [cgU2.toCaregiverInfo], c.id = x) ∨
         (∃ ac ∈ getAssignedCaregivers cgDb 5, ac.id = some x)) ↔
         ∃ u ∈ cgDb.users, u.safeloop_account_id = some 1 ∧ u.id = x)) :=
  ⟨rfl, rfl,
    caregiver_sets_partition cgDb cwProfile 5 1 [cgU2.toCaregiverInfo] rfl rfl (by decide)⟩

end SafeLoop
